import Mathlib

/-!
Verification of the traffic-accident advisory pipeline.

The Python sources are embedded shallowly: texts are Lean `String`s,
Python substring tests (`kw in text`) become an executable substring
check on the underlying character lists, dictionaries become structures,
exceptions become `Except`/`Option`, and the mutable corpus of the
keyword matcher is threaded as explicit state.  Components whose code
lives only in third-party libraries (the Chroma-backed embedding index,
the recursive text splitter) are modelled from the specification, as
flagged in their doc comments.
-/

/-- `chStart needle hay` is true when `needle` is an initial segment of `hay`
(character-by-character comparison, as Python string slicing would see it). -/
def chStart : List Char → List Char → Bool
  | [], _ => true
  | _ :: _, [] => false
  | a :: as, b :: bs => a == b && chStart as bs

/-- `chSub needle hay` is true when `needle` occurs contiguously inside `hay`;
this is Python's `needle in hay` on strings. -/
def chSub (needle : List Char) : List Char → Bool
  | [] => needle.isEmpty
  | c :: t => chStart needle (c :: t) || chSub needle t

/-- Python's substring containment `needle in hay` for `String`s. -/
def strIn (needle hay : String) : Bool := chSub needle.data hay.data

/-- One record of the crawled corpus as consumed by
`EnhancedTrafficAdvisor._search_similar_cases`.  `similarity_score` is the
scratch key the Python loop writes into the record's dict (`none` when the
key is absent). -/
structure Case where
  case_id : String
  vehicle_A_situation : String
  vehicle_B_situation : String
  accident_description : String
  fault_ratio : String
  similarity_score : Option Nat
deriving DecidableEq

/-- The fixed keyword vocabulary of `_search_similar_cases`. -/
def keywords : List String :=
  ["직진", "좌회전", "우회전", "신호등", "교차로", "녹색", "적색", "황색",
   "비보호", "화살표", "점멸", "후진", "차선변경", "주차장"]

/-- The searchable text of a case:
`f"{case['vehicle_A_situation']} {case['vehicle_B_situation']} {case['accident_description']}"`. -/
def case_text (c : Case) : String :=
  c.vehicle_A_situation ++ " " ++ c.vehicle_B_situation ++ " " ++ c.accident_description

/-- Vocabulary terms present in the user input:
`[kw for kw in keywords if kw in user_input]`. -/
def user_keywords_of (user_input : String) : List String :=
  keywords.filter (fun kw => strIn kw user_input)

/-- Score of one case against the extracted user keywords: the count of user
keywords occurring in the case's text. -/
def case_score (user_keywords : List String) (c : Case) : Nat :=
  (user_keywords.filter (fun kw => strIn kw (case_text c))).length

/-- Sort key used by `similar_cases.sort(key=lambda x: x['similarity_score'], reverse=True)`. -/
def sort_key (c : Case) : Nat := c.similarity_score.getD 0

/-- The descending-by-score order used for ranking; `rDesc a b` holds when `a`
may come before `b`.  Python's stable `sort(reverse=True)` orders by this
relation while keeping equal-scored records in their original order. -/
def rDesc (a b : Case) : Prop := sort_key b ≤ sort_key a

instance : DecidableRel rDesc :=
  fun a b => inferInstanceAs (Decidable (sort_key b ≤ sort_key a))

instance : IsTotal Case rDesc :=
  ⟨fun a b => Nat.le_total (sort_key b) (sort_key a)⟩

instance : IsTrans Case rDesc :=
  ⟨fun _ _ _ h1 h2 => Nat.le_trans h2 h1⟩

/-- `EnhancedTrafficAdvisor._search_similar_cases`.  Returns the ranked result
list together with the corpus after the call (the Python loop writes
`case['similarity_score'] = score` into the shared corpus dicts, so the
corpus after the call is part of the function's observable behaviour). -/
def search_similar_cases (user_input : String) (case_data : List Case) :
    List Case × List Case :=
  if case_data.isEmpty then ([], case_data) else
  let uk := user_keywords_of user_input
  if uk.isEmpty then ([], case_data) else
  let updated := case_data.map (fun c =>
    if 0 < case_score uk c then { c with similarity_score := some (case_score uk c) } else c)
  let similar := updated.filter (fun c => 0 < case_score uk c)
  ((List.insertionSort rDesc similar).take 3, updated)

/-- Projection of a case record to its five original (crawler-produced)
fields, discarding the `similarity_score` scratch key. -/
def text_view (c : Case) : String × String × String × String × String :=
  (c.case_id, c.vehicle_A_situation, c.vehicle_B_situation,
   c.accident_description, c.fault_ratio)

/-- Python whitespace, as stripped by `str.strip()`. -/
def isPySpace (c : Char) : Bool :=
  c == ' ' || c == '\t' || c == '\n' || c == '\r' || c == '\x0b' || c == '\x0c'

/-- Python `str.strip()`: drop whitespace from both ends. -/
def pyStrip (s : String) : String :=
  ⟨((s.data.dropWhile isPySpace).reverse.dropWhile isPySpace).reverse⟩

/-- A raw corpus record as parsed from `accident_cases.json`; each field is
`none` when the key is missing from the record's dict. -/
structure RawCase where
  case_id : Option String
  vehicle_A_situation : Option String
  vehicle_B_situation : Option String
  accident_description : Option String
  fault_ratio : Option String
deriving DecidableEq

/-- Metadata attached by `DocumentProcessor.load_accident_cases`. -/
structure DocMeta where
  source : String
  case_id : String
  fault_ratio : String
  mtype : String
deriving DecidableEq

/-- A langchain `Document`: page content plus metadata. -/
structure LCDocument where
  page_content : String
  metadata : DocMeta
deriving DecidableEq

/-- The canonical content block built by `load_accident_cases` (the f-string
template, then `.strip()`). -/
def case_content (cid a b d fr : String) : String :=
  pyStrip ("\n사고 유형: " ++ cid ++ "\n\n차량 A 상황:\n" ++ a ++
    "\n\n차량 B 상황:\n" ++ b ++ "\n\n사고 설명:\n" ++ d ++
    "\n\n과실 비율: " ++ fr ++ "\n                ")

/-- Conversion of one raw record to a `Document`.  Accessing a missing key in
the Python f-string raises `KeyError`, so the result is `none` as soon as a
required field is absent; fields are read in the source's order. -/
def to_document (c : RawCase) : Option LCDocument := do
  let cid ← c.case_id
  let a ← c.vehicle_A_situation
  let b ← c.vehicle_B_situation
  let d ← c.accident_description
  let fr ← c.fault_ratio
  pure ⟨case_content cid a b d fr, ⟨"accident_case", cid, fr, "판례"⟩⟩

/-- The document-building loop of `load_accident_cases`.  The loop appends
documents one record at a time; the first missing field raises out of the
loop, discarding the partial list, which is `none` here. -/
def load_loop : List RawCase → Option (List LCDocument)
  | [] => some []
  | c :: rest =>
    match to_document c with
    | none => none
    | some d => (load_loop rest).map (fun ds => d :: ds)

/-- `DocumentProcessor.load_accident_cases` on an already-parsed record list:
the surrounding `try ... except` turns any failure into the empty list. -/
def load_accident_cases (cases : List RawCase) : List LCDocument :=
  (load_loop cases).getD []

/-- Modelled from the spec: the Chunker (§4.2).  The repository delegates
splitting to the third-party `RecursiveCharacterTextSplitter`, whose code is
not under `src/`; per §4.2 the chunker emits overlapping fixed-size windows,
so successive windows start `size - overlap` characters apart and the last
window is the one reaching the end of the text.  `fuel` is a structural
bound on the number of windows (one per character suffices). -/
def chunk_from (size stride fuel : Nat) (text : List Char) (pos : Nat) :
    List (List Char) :=
  match fuel with
  | 0 => []
  | f + 1 =>
    if text.length ≤ pos + size then [(text.drop pos).take size]
    else ((text.drop pos).take size) :: chunk_from size stride f text (pos + stride)

/-- Modelled from the spec: chunking a whole text with the configured
`chunk_size`/`chunk_overlap` (source defaults 1000/200 in
`DocumentProcessor.__init__`). -/
def chunk_text (size overlap : Nat) (text : List Char) : List (List Char) :=
  chunk_from size (size - overlap) (text.length + 1) text 0

/-- Modelled from the spec: an `EmbeddingEntry` (§3) — chunk text, its
vector, and the carried metadata. -/
structure IndexEntry where
  text : List Char
  vector : List Int
  metadata : DocMeta
deriving DecidableEq

/-- Modelled from the spec: the persisted collection of the Embedding Index
(§4.3), keyed implicitly by the single collection name the sources use. -/
structure IndexState where
  entries : List IndexEntry
deriving DecidableEq

/-- Chunks of a document batch, each paired with its document's metadata
(`split_documents` keeps the source document's metadata on every chunk). -/
def chunks_of (size overlap : Nat) (documents : List LCDocument) :
    List (List Char × DocMeta) :=
  documents.flatMap (fun d =>
    (chunk_text size overlap d.page_content.data).map (fun t => (t, d.metadata)))

/-- Embed every chunk through the external embedding service; `none` as soon
as the service fails on some chunk. -/
def embed_entries (embed : List Char → Option (List Int)) :
    List (List Char × DocMeta) → Option (List IndexEntry)
  | [] => some []
  | (t, m) :: rest =>
    match embed t with
    | none => none
    | some v => (embed_entries embed rest).map (fun es => ⟨t, v, m⟩ :: es)

/-- Modelled from the spec: `build` of the Embedding Index (§4.3).  The
persistence layer itself is the third-party Chroma store, absent from
`src/`; per §4.3 a rebuild overwrites the named collection (idempotent
persistence) and a failed embedding run commits nothing, leaving any
previously persisted collection unchanged (staged, atomic commit). -/
def index_build (embed : List Char → Option (List Int)) (size overlap : Nat)
    (st : IndexState) (documents : List LCDocument) : IndexState :=
  match embed_entries embed (chunks_of size overlap documents) with
  | some entries => ⟨entries⟩
  | none => st

/-- Inner product, the similarity score of the modelled index. -/
def dot : List Int → List Int → Int
  | [], _ => 0
  | _, [] => 0
  | a :: as, b :: bs => a * b + dot as bs

/-- Ranking relation for index queries: descending similarity to `qv`. -/
def qDesc (qv : List Int) (e1 e2 : IndexEntry) : Prop :=
  dot e2.vector qv ≤ dot e1.vector qv

instance (qv : List Int) : DecidableRel (qDesc qv) :=
  fun e1 e2 => inferInstanceAs (Decidable (dot e2.vector qv ≤ dot e1.vector qv))

/-- Modelled from the spec: `query` of the Embedding Index (§4.3) — embed the
query, return the `k` most similar entries; a query-time embedding failure
degrades to the empty result, never an exception. -/
def index_query (embed : List Char → Option (List Int)) (st : IndexState)
    (q : String) (k : Nat) : List IndexEntry :=
  match embed q.data with
  | none => []
  | some qv => (List.insertionSort (qDesc qv) st.entries).take k

/-- Result dict of `TrafficAccidentAdvisor.get_advice`: answer text, the
`(content, metadata)` source-document summaries, status, and the `error`
key (present only on failure). -/
structure AdviceResult where
  answer : String
  source_documents : List (String × DocMeta)
  status : String
  error : Option String
deriving DecidableEq

/-- The general prompt `get_advice` falls back to when no vector store is
available. -/
def general_prompt (question : String) : String :=
  "\n당신은 교통사고 전문 자문사입니다.\n다음 질문에 대해 일반적인 교통법규와 상식선에서 조언해주세요.\n\n질문: "
    ++ question ++ "\n\n**주의**: 정확한 법률 자문을 위해서는 전문 변호사와 상담이 필요합니다.\n"

/-- `TrafficAccidentAdvisor.get_advice`.  `qa_chain` is the RAG chain, set
exactly when the vector store loaded (`_setup_chains`); it returns the
answer and the retrieved source documents, or raises.  `llm` is the plain
completion call used when there is no vector store.  The `except` block
converts any raised error into a fixed user-safe result. -/
def get_advice (qa_chain : Option (String → Except String (String × List LCDocument)))
    (llm : String → Except String String) (question : String) : AdviceResult :=
  match qa_chain with
  | some chain =>
    match chain question with
    | .ok (ans, docs) =>
      ⟨ans, docs.map (fun d => (d.page_content.take 300 ++ "...", d.metadata)), "success", none⟩
    | .error e =>
      ⟨"죄송합니다. 일시적인 오류가 발생했습니다. 다시 시도해주세요.", [], "error", some e⟩
  | none =>
    match llm (general_prompt question) with
    | .ok ans => ⟨ans, [], "success", none⟩
    | .error e =>
      ⟨"죄송합니다. 일시적인 오류가 발생했습니다. 다시 시도해주세요.", [], "error", some e⟩

/-- One turn of the conversation memory. -/
inductive ChatMsg where
  | human (text : String)
  | ai (text : String)
deriving DecidableEq

/-- Result dict of `SimpleTrafficAdvisor.quick_diagnosis`. -/
structure DiagResult where
  answer : String
  rtype : String
  status : String
  error : Option String
deriving DecidableEq

/-- The quick-diagnosis prompt with its two placeholders substituted;
`image_analysis or "이미지 분석 결과 없음"` defaults the falsy empty string. -/
def quick_diagnosis_prompt (user_input image_analysis : String) : String :=
  "\n당신은 교통사고 전문 법률 자문사입니다. \n사용자의 상황을 분석하여 즉시 활용 가능한 조언을 제공해주세요.\n\n사용자 상황: "
    ++ user_input ++ "\n이미지 분석 결과: "
    ++ (if image_analysis = "" then "이미지 분석 결과 없음" else image_analysis)
    ++ "\n\n다음 형식으로 답변해주세요:\n"

/-- `SimpleTrafficAdvisor.quick_diagnosis`.  `llm` is the completion-service
call (`chain.invoke`), which either returns the raw response text — possibly
empty — or raises.  On success the user and assistant turns are appended to
the memory; on any raised error the fixed user-safe message is returned with
an `error` status and the memory is left untouched. -/
def quick_diagnosis (llm : String → Except String String) (memory : List ChatMsg)
    (user_input image_analysis : String) : DiagResult × List ChatMsg :=
  match llm (quick_diagnosis_prompt user_input image_analysis) with
  | .ok t =>
    (⟨t, "quick_diagnosis", "success", none⟩,
      memory ++ [ChatMsg.human user_input, ChatMsg.ai t])
  | .error e =>
    (⟨"죄송합니다. 일시적인 오류가 발생했습니다. 다시 시도해주세요.", "error", "error", some e⟩,
      memory)

/-- `GeminiClient.__init__`: the minimum interval between completion-service
calls, `60 / Config.GEMINI_RATE_LIMIT`. -/
def min_interval_of (rate_limit : ℚ) : ℚ := 60 / rate_limit

/-- `GeminiClient._wait_for_rate_limit` on an explicit clock: given the
remembered `last_request_time` and the current time, sleep for the remainder
of the minimum interval when the gap is too small, and return the new
`last_request_time` — the time at which the next request is issued. -/
def wait_for_rate_limit (min_interval last_request_time current_time : ℚ) : ℚ :=
  if current_time - last_request_time < min_interval then
    current_time + (min_interval - (current_time - last_request_time))
  else
    current_time

/-- The corpus record of the specification's §8 scenario. -/
def a1Case : Case :=
  ⟨"A1", "직진", "좌회전", "교차로 충돌", "30:70", none⟩

/-- A well-formed raw record. -/
def rawGood : RawCase :=
  ⟨some "A1", some "직진", some "좌회전", some "교차로 충돌", some "30:70"⟩

/-- A malformed raw record: the required `case_id` field is missing. -/
def rawBad : RawCase :=
  ⟨none, some "직진", some "좌회전", some "교차로 충돌", some "30:70"⟩

/-! ## Helper lemmas -/

/-- Inserting `a` with the descending order commutes with filtering on a fixed
score: `a` is placed before every equal-scored element already present, so
the filtered slice gains `a` at the front exactly when `a` has that score.
This is the stability of the ranking sort, element by element. -/
theorem filter_sortKey_orderedInsert (a : Case) (k : Nat) :
    ∀ l : List Case, (l.orderedInsert rDesc a).filter (fun c => sort_key c == k) =
      if sort_key a == k then a :: l.filter (fun c => sort_key c == k)
      else l.filter (fun c => sort_key c == k)
  | [] => by
    simp [List.filter_cons]
  | b :: bs => by
    simp only [List.orderedInsert]
    by_cases hab : rDesc a b
    · rw [if_pos hab]
      simp [List.filter_cons]
    · rw [if_neg hab]
      simp only [List.filter_cons]
      rw [filter_sortKey_orderedInsert a k bs]
      unfold rDesc at hab
      by_cases hak : sort_key a = k <;> by_cases hbk : sort_key b = k <;>
        simp_all
  termination_by l => l.length

/-- Stability of the descending sort: restricted to any fixed score, the
sorted list lists the records in their original (corpus) order. -/
theorem filter_sortKey_insertionSort (k : Nat) :
    ∀ l : List Case, (List.insertionSort rDesc l).filter (fun c => sort_key c == k) =
      l.filter (fun c => sort_key c == k)
  | [] => rfl
  | b :: bs => by
    simp only [List.insertionSort]
    rw [filter_sortKey_orderedInsert, filter_sortKey_insertionSort k bs, List.filter_cons]

/-- Writing the `similarity_score` key does not change a record's text, so its
score against any keyword set is unchanged. -/
theorem case_score_set (uk : List String) (c : Case) (s : Nat) :
    case_score uk { c with similarity_score := some s } = case_score uk c := rfl

/-- A failing record anywhere in the corpus aborts the whole loading loop. -/
theorem load_loop_eq_none {cases : List RawCase} (c : RawCase) (hc : c ∈ cases)
    (hnone : to_document c = none) : load_loop cases = none := by
  induction cases with
  | nil => cases hc
  | cons d rest ih =>
    rcases List.mem_cons.mp hc with rfl | hmem
    · simp [load_loop, hnone]
    · unfold load_loop
      cases h : to_document d
      · rfl
      · simp [ih hmem]

/-- When every record converts, the loop returns all their documents in
order. -/
theorem load_loop_eq_some {cases : List RawCase}
    (h : ∀ c ∈ cases, (to_document c).isSome = true) :
    load_loop cases = some (cases.filterMap to_document) := by
  induction cases with
  | nil => rfl
  | cons d rest ih =>
    have hd := h d (List.mem_cons_self d rest)
    obtain ⟨doc, hdoc⟩ := Option.isSome_iff_exists.mp hd
    simp [load_loop, hdoc, List.filterMap_cons,
      ih (fun c hc => h c (List.mem_cons_of_mem d hc))]

/-- If the embedding service fails on any chunk of the batch, the whole
embedding pass fails. -/
theorem embed_entries_eq_none {embed : List Char → Option (List Int)}
    {chunks : List (List Char × DocMeta)} (c : List Char × DocMeta)
    (hc : c ∈ chunks) (hfail : embed c.1 = none) :
    embed_entries embed chunks = none := by
  induction chunks with
  | nil => cases hc
  | cons d rest ih =>
    rcases List.mem_cons.mp hc with rfl | hmem
    · unfold embed_entries
      rw [hfail]
    · unfold embed_entries
      cases h : embed d.1
      · rfl
      · simp [ih hmem]

/-! ## Claims -/

/-- C1 (counterexample): a session with a missing persisted vector index, the
non-empty §8 scenario corpus, and a query containing the vocabulary term
"좌회전".  `get_advice` returns an empty evidence list, although the keyword
matcher has a non-empty answer for the very same query and corpus — so the
retrieval path does not return the keyword-matcher results and the claimed
vector → keyword degradation does not happen. -/
theorem get_advice_missing_index_no_keyword :
    (get_advice none (fun _ => Except.ok "일반 조언") "좌회전 중 충돌").source_documents = [] ∧
    (search_similar_cases "좌회전 중 충돌" [a1Case]).1 ≠ [] :=
  ⟨rfl, by decide⟩

/-- C1 (amended): the degradation order the code actually implements is
vector → plain LLM answer → fixed error message.  With no vector store,
`get_advice` answers through the plain LLM with an empty source-document
list and a success status; when the vector query path raises at runtime, it
returns the fixed user-safe message with an error status and empty
evidence.  The keyword matcher is never consulted by this retrieval path. -/
theorem get_advice_degradation_actual :
    (∀ (llm : String → Except String String) (q t : String),
      llm (general_prompt q) = Except.ok t →
      get_advice none llm q = ⟨t, [], "success", none⟩) ∧
    (∀ (chain : String → Except String (String × List LCDocument))
      (llm : String → Except String String) (q e : String),
      chain q = Except.error e →
      get_advice (some chain) llm q =
        ⟨"죄송합니다. 일시적인 오류가 발생했습니다. 다시 시도해주세요.", [], "error", some e⟩) := by
  constructor
  · intro llm q t h
    simp [get_advice, h]
  · intro chain llm q e h
    simp [get_advice, h]

/-- C1 (witness): both degradation branches at concrete inputs. -/
theorem get_advice_degradation_actual_witness :
    get_advice none (fun _ => Except.ok "조언") "질문" = ⟨"조언", [], "success", none⟩ ∧
    get_advice (some (fun _ => Except.error "api down")) (fun _ => Except.ok "조언") "질문" =
      ⟨"죄송합니다. 일시적인 오류가 발생했습니다. 다시 시도해주세요.", [], "error", some "api down"⟩ :=
  ⟨get_advice_degradation_actual.1 _ _ _ rfl,
   get_advice_degradation_actual.2 _ _ _ _ rfl⟩

/-- C2: for every query and corpus, keyword matching returns at most 3
records; the ranking is descending in the stored score; every returned
record carries a positive score equal to its count of shared vocabulary
terms (score-0 records are excluded); and on every fixed score level the
returned records appear in corpus order (stable ties), being a sublist of
the corpus as it stands after the call. -/
theorem search_topk_sorted_stable (user_input : String) (case_data : List Case) :
    (search_similar_cases user_input case_data).1.length ≤ 3 ∧
    List.Sorted rDesc (search_similar_cases user_input case_data).1 ∧
    (∀ c ∈ (search_similar_cases user_input case_data).1,
      c.similarity_score = some (case_score (user_keywords_of user_input) c) ∧
      0 < case_score (user_keywords_of user_input) c) ∧
    (∀ k : Nat,
      List.Sublist
        ((search_similar_cases user_input case_data).1.filter (fun c => sort_key c == k))
        (search_similar_cases user_input case_data).2) := by
  unfold search_similar_cases
  by_cases h1 : case_data.isEmpty
  · simp [h1, List.nil_sublist]
  by_cases h2 : (user_keywords_of user_input).isEmpty
  · simp [h1, h2, List.nil_sublist]
  simp only [h1, h2, Bool.false_eq_true, if_false]
  refine ⟨?_, ?_, ?_, ?_⟩
  · exact List.length_take_le _ _
  · exact List.Pairwise.sublist (List.take_sublist _ _) (List.sorted_insertionSort rDesc _)
  · intro c hc
    have hc1 := (List.take_sublist 3 _).subset hc
    have hc2 := (List.mem_insertionSort rDesc).mp hc1
    obtain ⟨hmem, hpred⟩ := List.mem_filter.mp hc2
    have hpos : 0 < case_score (user_keywords_of user_input) c := of_decide_eq_true hpred
    obtain ⟨c0, hc0, rfl⟩ := List.mem_map.mp hmem
    by_cases hp0 : 0 < case_score (user_keywords_of user_input) c0
    · simp only [if_pos hp0, case_score_set]
      exact ⟨trivial, hp0⟩
    · rw [if_neg hp0] at hpos
      exact absurd hpos hp0
  · intro k
    have t1 := (List.take_sublist 3 (List.insertionSort rDesc
      ((case_data.map (fun c =>
        if 0 < case_score (user_keywords_of user_input) c
        then { c with similarity_score := some (case_score (user_keywords_of user_input) c) }
        else c)).filter (fun c => 0 < case_score (user_keywords_of user_input) c)))).filter
      (fun c => sort_key c == k)
    rw [filter_sortKey_insertionSort] at t1
    exact t1.trans ((List.filter_sublist _).trans (List.filter_sublist _))

/-- C3: a query containing none of the vocabulary terms yields zero keyword
matches, for every corpus — no wildcard match. -/
theorem search_no_vocab_empty (user_input : String) (case_data : List Case)
    (h : ∀ kw ∈ keywords, strIn kw user_input = false) :
    (search_similar_cases user_input case_data).1 = [] := by
  have huk : user_keywords_of user_input = [] := by
    unfold user_keywords_of
    rw [List.filter_eq_nil_iff]
    intro kw hkw
    simp [h kw hkw]
  unfold search_similar_cases
  rw [huk]
  split <;> rfl

/-- C3 (witness): a concrete vocabulary-free query over the scenario corpus. -/
theorem search_no_vocab_empty_witness :
    (search_similar_cases "안녕하세요" [a1Case]).1 = [] :=
  search_no_vocab_empty "안녕하세요" [a1Case] (by decide)

/-- C4: rebuilding the index from an unchanged corpus leaves both the
persisted collection and the results of every fixed query unchanged
(spec-modelled overwrite persistence, §4.3). -/
theorem index_build_idempotent (embed : List Char → Option (List Int))
    (size overlap : Nat) (st : IndexState) (documents : List LCDocument) :
    index_build embed size overlap (index_build embed size overlap st documents) documents =
      index_build embed size overlap st documents ∧
    ∀ (q : String) (k : Nat),
      index_query embed
        (index_build embed size overlap
          (index_build embed size overlap st documents) documents) q k =
      index_query embed (index_build embed size overlap st documents) q k := by
  constructor
  · unfold index_build
    cases h : embed_entries embed (chunks_of size overlap documents) <;> simp [h]
  · intro q k
    congr 1
    unfold index_build
    cases h : embed_entries embed (chunks_of size overlap documents) <;> simp [h]

/-- C5: a build during which the embedding service fails on some chunk
commits nothing — the previously persisted collection is unchanged
(spec-modelled staged build, §4.3). -/
theorem index_build_fail_preserves (embed : List Char → Option (List Int))
    (size overlap : Nat) (st : IndexState) (documents : List LCDocument)
    (h : ∃ c ∈ chunks_of size overlap documents, embed c.1 = none) :
    index_build embed size overlap st documents = st := by
  obtain ⟨c, hc, hf⟩ := h
  unfold index_build
  rw [embed_entries_eq_none c hc hf]

/-- C5 (witness): a totally failing embedding service over a one-document
corpus leaves a concrete one-entry persisted collection intact. -/
theorem index_build_fail_preserves_witness :
    index_build (fun _ => none) 1000 200
      ⟨[⟨['x'], [1], ⟨"accident_case", "A0", "20:80", "판례"⟩⟩]⟩
      [⟨"사고", ⟨"accident_case", "A1", "30:70", "판례"⟩⟩] =
    ⟨[⟨['x'], [1], ⟨"accident_case", "A0", "20:80", "판례"⟩⟩]⟩ :=
  index_build_fail_preserves _ 1000 200 _ _ (by decide)

/-- C6 (counterexample): a corpus holding one well-formed and one malformed
record.  The well-formed record does convert to a document, yet the loader
returns the empty list: the single `try/except` around the whole loop aborts
the load instead of skipping the malformed record and continuing. -/
theorem load_discards_wellformed :
    load_accident_cases [rawGood, rawBad] = [] ∧ (to_document rawGood).isSome = true := by
  constructor
  · decide
  · decide

/-- C6 (amended): on the first malformed record the whole load returns the
empty list (logged, never raised to the caller); the canonical documents of
the records are returned only when every record is well-formed. -/
theorem load_accident_cases_amended (cases : List RawCase) :
    ((∃ c ∈ cases, to_document c = none) → load_accident_cases cases = []) ∧
    ((∀ c ∈ cases, (to_document c).isSome = true) →
      load_accident_cases cases = cases.filterMap to_document) := by
  constructor
  · rintro ⟨c, hc, hnone⟩
    unfold load_accident_cases
    rw [load_loop_eq_none c hc hnone]
    rfl
  · intro h
    unfold load_accident_cases
    rw [load_loop_eq_some h]
    rfl

/-- C6 (witness): both branches of the amended behaviour at concrete
corpora. -/
theorem load_accident_cases_amended_witness :
    load_accident_cases [rawGood, rawBad] = [] ∧
    load_accident_cases [rawGood] = [rawGood].filterMap to_document :=
  ⟨(load_accident_cases_amended [rawGood, rawBad]).1 ⟨rawBad, by decide, rfl⟩,
   (load_accident_cases_amended [rawGood]).2 (by decide)⟩

set_option maxRecDepth 4000 in
/-- C7: with chunk_size 1000 and chunk_overlap 200, every source text of
length 1500 is split into exactly two chunks, and the second chunk is the
suffix of the text starting at offset 800 (spec-modelled chunker, §4.2). -/
theorem chunk_1500_two_chunks_offset800 (text : List Char) (h : text.length = 1500) :
    chunk_text 1000 200 text = [text.take 1000, text.drop 800] := by
  unfold chunk_text chunk_from
  simp only [h]
  norm_num
  rw [show (1500 : Nat) = 1499 + 1 from rfl]
  unfold chunk_from
  norm_num
  rw [List.take_of_length_le]
  · simp [h]
  · simp [h]

/-- C7 (witness): the scenario on a concrete 1500-character text. -/
theorem chunk_1500_two_chunks_offset800_witness :
    chunk_text 1000 200 (List.replicate 1500 'a') =
      [(List.replicate 1500 'a').take 1000, (List.replicate 1500 'a').drop 800] :=
  chunk_1500_two_chunks_offset800 (List.replicate 1500 'a') (List.length_replicate 1500 'a')

/-- C8 (counterexample): matching the scenario query against the scenario
corpus changes the corpus: `case['similarity_score'] = score` writes the
score into the shared record dict, so the record is not unchanged after the
call. -/
theorem search_mutates_corpus :
    (search_similar_cases "좌회전 중 충돌" [a1Case]).2 ≠ [a1Case] := by decide

/-- C8 (amended): keyword matching never adds, removes or reorders records
and never touches the five crawler-produced fields of any record; the only
mutation is writing the `similarity_score` scratch key on records that
match with a positive score. -/
theorem search_preserves_text_fields (user_input : String) (case_data : List Case) :
    ((search_similar_cases user_input case_data).2).map text_view =
      case_data.map text_view := by
  unfold search_similar_cases
  by_cases h1 : case_data.isEmpty
  · simp [h1]
  by_cases h2 : (user_keywords_of user_input).isEmpty
  · simp [h1, h2]
  simp only [h1, h2, Bool.false_eq_true, if_false, List.map_map]
  congr 1
  funext c
  by_cases hp : 0 < case_score (user_keywords_of user_input) c
  · simp [Function.comp, if_pos hp, text_view]
  · simp [Function.comp, if_neg hp]

/-- C9 (counterexample): a completion service that succeeds with the empty
response.  `quick_diagnosis` reports status `success` and passes the empty
answer through — it does not verify non-emptiness and does not produce the
fixed user-safe error result the claim requires for empty responses. -/
theorem quick_diagnosis_empty_response :
    (quick_diagnosis (fun _ => Except.ok "") [] "직진 사고" "").1.status = "success" ∧
    (quick_diagnosis (fun _ => Except.ok "") [] "직진 사고" "").1.answer = "" :=
  ⟨rfl, rfl⟩

/-- C9 (amended): when the completion-service call raises, the advisor
returns the fixed user-safe message with an error status and an untouched
memory, never re-raising; a successful response — empty included — is
returned verbatim with a success status and the two new turns appended. -/
theorem quick_diagnosis_amended :
    (∀ (llm : String → Except String String) (memory : List ChatMsg) (ui ia e : String),
      llm (quick_diagnosis_prompt ui ia) = Except.error e →
      quick_diagnosis llm memory ui ia =
        (⟨"죄송합니다. 일시적인 오류가 발생했습니다. 다시 시도해주세요.", "error", "error", some e⟩,
          memory)) ∧
    (∀ (llm : String → Except String String) (memory : List ChatMsg) (ui ia t : String),
      llm (quick_diagnosis_prompt ui ia) = Except.ok t →
      quick_diagnosis llm memory ui ia =
        (⟨t, "quick_diagnosis", "success", none⟩,
          memory ++ [ChatMsg.human ui, ChatMsg.ai t])) := by
  constructor
  · intro llm memory ui ia e h
    unfold quick_diagnosis
    rw [h]
  · intro llm memory ui ia t h
    unfold quick_diagnosis
    rw [h]

/-- C9 (witness): both branches of the amended behaviour at concrete
inputs. -/
theorem quick_diagnosis_amended_witness :
    quick_diagnosis (fun _ => Except.error "quota") [] "직진 사고" "" =
      (⟨"죄송합니다. 일시적인 오류가 발생했습니다. 다시 시도해주세요.", "error", "error", some "quota"⟩,
        []) ∧
    quick_diagnosis (fun _ => Except.ok "요약") [] "직진 사고" "" =
      (⟨"요약", "quick_diagnosis", "success", none⟩,
        [ChatMsg.human "직진 사고", ChatMsg.ai "요약"]) :=
  ⟨quick_diagnosis_amended.1 _ _ _ _ _ rfl,
   quick_diagnosis_amended.2 _ _ _ _ _ rfl⟩

/-- C10: the client-side pacing guarantees the minimum interval.  The time a
request is issued (the value remembered as `last_request_time`) is at least
`min_interval` after the previous remembered call time, and two consecutive
calls — the second starting at any later-or-earlier clock reading — are
issued at least `min_interval` apart. -/
theorem wait_for_rate_limit_spacing (m last now1 now2 : ℚ) :
    m ≤ wait_for_rate_limit m last now1 - last ∧
    m ≤ wait_for_rate_limit m (wait_for_rate_limit m last now1) now2 -
        wait_for_rate_limit m last now1 := by
  have key : ∀ l n : ℚ, m ≤ wait_for_rate_limit m l n - l := by
    intro l n
    unfold wait_for_rate_limit
    split_ifs with h <;> linarith
  exact ⟨key last now1, key _ now2⟩
